import Mathlib

/-!
Verification of the long-running job monitoring subsystem of the
infinite-memoire frontend (the `BackendAiService` class: status
normalization, result transformation, `fetchWithRetry`, and the
`pollUntilComplete` monitor loop).

The embedding mirrors the TypeScript source.  JavaScript `||`-defaulting
(where `0`, `""`, `undefined` are falsy but arrays/objects are always
truthy) is modelled by the `jsOr*` helpers; asynchronous collaborators
(the fetch transport, the status endpoint, the results endpoint, the
caller-supplied `onProgress` callback) are modelled as call-indexed
scripts, and the monitor loop as a fuel-indexed recursion that records a
trace of observable events (polls, progress notifications, sleeps with
their durations, result fetches, caught exceptions).
-/

namespace BackendAi

/-- Canonical processing status enumeration of `ProcessingSession.status`. -/
inductive Status where
  | pending
  | initializing
  | processing
  | completed
  | failed
deriving Repr, DecidableEq, BEq

/-- The wire string of a canonical status value. -/
def Status.toStr : Status → String
  | .pending => "pending"
  | .initializing => "initializing"
  | .processing => "processing"
  | .completed => "completed"
  | .failed => "failed"

/-- The canonical status strings. -/
def canonicalStatuses : List String :=
  ["pending", "initializing", "processing", "completed", "failed"]

/-- Errors, by construction site.  The source has three error classes
(`BackendAiServiceError`, `ProcessingTimeoutError`, `NetworkError`); this
inductive refines them by the site that constructs them, so that the
distinct message formats stay distinguishable. -/
inductive Err where
  /-- `BackendAiServiceError` raised by input validation in `processAudioFromFirebase`. -/
  | validation (msg : String)
  /-- `BackendAiServiceError` for a response missing the session id. -/
  | invalidResponse (msg : String)
  /-- `BackendAiServiceError` for HTTP 404 on the status endpoint. -/
  | sessionNotFound (sessionId : String)
  /-- `NetworkError` for a non-2xx HTTP response, after body inspection. -/
  | networkHttp (msg : String) (status : Nat)
  /-- `NetworkError` raised by `fetchWithRetry` after exhausting attempts. -/
  | networkFail (msg : String)
  /-- An arbitrary JavaScript error thrown by the caller-supplied `onProgress`. -/
  | jsError (msg : String)
  /-- `BackendAiServiceError` built in `pollUntilComplete` when the session status is `failed`. -/
  | processingFailed (errorMessage : String)
  /-- `BackendAiServiceError` built in `pollUntilComplete` after 5 consecutive errors. -/
  | pollingExhausted (lastMessage : String)
  /-- `ProcessingTimeoutError`. -/
  | processingTimeout (sessionId : String)
deriving Repr, DecidableEq, BEq

/-- The `.message` of each error, exactly as the source formats it. -/
def Err.message : Err → String
  | .validation m => m
  | .invalidResponse m => m
  | .sessionNotFound sid => "Session not found: " ++ sid
  | .networkHttp m _ => m
  | .networkFail m => m
  | .jsError m => m
  | .processingFailed m => "Processing failed: " ++ m
  | .pollingExhausted last =>
      "Polling failed after 5 consecutive errors. Last error: " ++ last
  | .processingTimeout sid => "Processing timeout for session " ++ sid

/-- JavaScript `a || b` for a possibly-absent string (`""` is falsy). -/
def jsOrStr : Option String → String → String
  | some s, d => if s = "" then d else s
  | none, d => d

/-- JavaScript `a || b` keeping the option (`""` is falsy). -/
def jsOrOptStr : Option String → Option String → Option String
  | some s, b => if s = "" then b else some s
  | none, b => b

/-- JavaScript `a || b` for a possibly-absent integer (`0` is falsy). -/
def jsOrInt : Option Int → Int → Int
  | some v, d => if v = 0 then d else v
  | none, d => d

/-- JavaScript `a || b` keeping the option (`0` is falsy). -/
def jsOrOptInt : Option Int → Option Int → Option Int
  | some v, b => if v = 0 then b else some v
  | none, b => b

/-- JavaScript `a || b` for a possibly-absent natural number (`0` is falsy). -/
def jsOrNat : Option Nat → Nat → Nat
  | some v, d => if v = 0 then d else v
  | none, d => d

/-- Length of JavaScript `s.split(' ')`: one more than the number of
space characters (`"".split(' ')` is `[""]`, length 1). -/
def jsSplitLen (s : String) : Nat := s.toList.count ' ' + 1

/-- Falsiness of JavaScript `s.trim()`: the trimmed string is empty
exactly when every character of `s` is whitespace. -/
def jsTrimEmpty (s : String) : Bool := s.toList.all Char.isWhitespace

/-- `normalizeStatus` (part_003 lines 373-379): lower-case, keep the
four listed statuses, default everything else to `processing`. -/
def normalizeStatus (status : String) : Status :=
  let normalizedStatus := status.toLower
  if normalizedStatus = "completed" then .completed
  else if normalizedStatus = "failed" then .failed
  else if normalizedStatus = "pending" then .pending
  else if normalizedStatus = "initializing" then .initializing
  else .processing

/-- Raw status payload from the status endpoint; each field may be
absent, and both naming variants exist where the source reads both.
(`results_preview`, typed `any` in the source and never consulted by the
monitor, is omitted; non-array `errors` values are modelled as `none`,
matching the `Array.isArray` guard.) -/
structure RawStatusPayload where
  status : Option String
  current_stage : Option String
  currentStage : Option String
  progress_percentage : Option Int
  progressPercentage : Option Int
  current_task : Option String
  currentTask : Option String
  estimated_completion : Option String
  estimatedCompletion : Option String
  errors : Option (List String)
deriving Repr, DecidableEq

/-- A raw status payload with every field absent. -/
def emptyRawStatus : RawStatusPayload :=
  { status := none, current_stage := none, currentStage := none
    progress_percentage := none, progressPercentage := none
    current_task := none, currentTask := none
    estimated_completion := none, estimatedCompletion := none
    errors := none }

/-- `ProcessingSession`, the canonical session shape.  Error entries are
modelled by their string form. -/
structure ProcessingSession where
  sessionId : String
  status : Status
  currentStage : String
  progressPercentage : Int
  currentTask : String
  estimatedCompletion : Option String
  errors : List String
deriving Repr, DecidableEq, BEq

/-- The session-construction block of `monitorProcessing` (part_003
lines 211-220): transform the backend response to the frontend interface
with defaults, clamping the progress percentage into `[0, 100]`. -/
def normalizeSession (sessionId : String) (statusData : RawStatusPayload) :
    ProcessingSession :=
  { sessionId := sessionId
    status := normalizeStatus (jsOrStr statusData.status "processing")
    currentStage :=
      jsOrStr statusData.current_stage (jsOrStr statusData.currentStage "Processing...")
    progressPercentage :=
      min 100 (max 0 (jsOrInt statusData.progress_percentage
        (jsOrInt statusData.progressPercentage 0)))
    currentTask :=
      jsOrStr statusData.current_task (jsOrStr statusData.currentTask "Initializing...")
    estimatedCompletion :=
      jsOrOptStr statusData.estimated_completion statusData.estimatedCompletion
    errors := statusData.errors.getD [] }

/-! ## Result transformation (part_003 lines 381-438 and the
transformation block of `getResults`, lines 257-264)

Fractional remote numbers (quality scores, confidence, accuracy) are
modelled as `Int`; only their `||`-defaulting behaviour matters here. -/

/-- Canonical `Chapter`. -/
structure Chapter where
  id : String
  title : String
  content : String
  qualityScore : Option Int
  themes : List String
  participants : List String
  temporalMarkers : List String
  wordCount : Nat
  estimatedReadingTime : Nat
deriving Repr, DecidableEq

/-- Canonical `FollowupQuestion`. -/
structure FollowupQuestion where
  id : String
  category : String
  question : String
  context : String
  priorityScore : Int
  reasoning : String
  suggestedAnswers : Option (List String)
deriving Repr, DecidableEq

/-- `temporalRange` of a storyline (`end` is a Lean keyword, hence guillemets). -/
structure TemporalRange where
  start : String
  «end» : String
deriving Repr, DecidableEq

/-- Canonical `Storyline`. -/
structure Storyline where
  id : String
  title : String
  description : String
  chapters : List String
  temporalRange : TemporalRange
  confidence : Int
deriving Repr, DecidableEq

/-- Canonical `GraphSummary`. -/
structure GraphSummary where
  totalNodes : Nat
  totalEdges : Nat
  mainStorylines : Nat
  temporalSpan : String
  keyThemes : List String
deriving Repr, DecidableEq

/-- Canonical `ProcessingSummary`. -/
structure ProcessingSummary where
  totalProcessingTime : String
  audioFilesProcessed : Nat
  transcriptionAccuracy : Int
  chaptersGenerated : Nat
  wordsGenerated : Nat
  aiAgentsUsed : List String
deriving Repr, DecidableEq

/-- Canonical `ProcessingResults`.  The `questionCategories` record is
modelled as an association list. -/
structure ProcessingResults where
  chapters : List Chapter
  followupQuestions : List FollowupQuestion
  questionCategories : List (String × List FollowupQuestion)
  storylines : List Storyline
  graphSummary : GraphSummary
  processingSummary : ProcessingSummary
deriving Repr, DecidableEq

/-- Raw chapter object from the results payload. -/
structure RawChapter where
  id : Option String
  title : Option String
  content : Option String
  quality_score : Option Int
  qualityScore : Option Int
  themes : Option (List String)
  participants : Option (List String)
  temporal_markers : Option (List String)
  temporalMarkers : Option (List String)
  word_count : Option Nat
  wordCount : Option Nat
  estimated_reading_time : Option Nat
  estimatedReadingTime : Option Nat
deriving Repr, DecidableEq

/-- A raw chapter with every field absent. -/
def emptyRawChapter : RawChapter :=
  { id := none, title := none, content := none
    quality_score := none, qualityScore := none
    themes := none, participants := none
    temporal_markers := none, temporalMarkers := none
    word_count := none, wordCount := none
    estimated_reading_time := none, estimatedReadingTime := none }

/-- One element of `transformChapters` (part_003 lines 382-393): the
arrow function applied by `chapters.map` at a given index. -/
def transformChapter (index : Nat) (chapter : RawChapter) : Chapter :=
  { id := jsOrStr chapter.id ("chapter_" ++ toString index)
    title := jsOrStr chapter.title ("Chapter " ++ toString (index + 1))
    content := jsOrStr chapter.content ""
    qualityScore := jsOrOptInt chapter.quality_score chapter.qualityScore
    themes := chapter.themes.getD []
    participants := chapter.participants.getD []
    temporalMarkers := (chapter.temporal_markers <|> chapter.temporalMarkers).getD []
    wordCount :=
      jsOrNat chapter.word_count (jsOrNat chapter.wordCount
        (jsOrNat (chapter.content.map jsSplitLen) 0))
    estimatedReadingTime :=
      jsOrNat chapter.estimated_reading_time (jsOrNat chapter.estimatedReadingTime
        ((jsOrNat (chapter.content.map jsSplitLen) 0 + 199) / 200)) }

/-- `transformChapters` (part_003 lines 381-394). -/
def transformChapters (chapters : List RawChapter) : List Chapter :=
  chapters.mapIdx transformChapter

/-- Raw follow-up question object. -/
structure RawQuestion where
  id : Option String
  category : Option String
  question : Option String
  context : Option String
  priority_score : Option Int
  priorityScore : Option Int
  reasoning : Option String
  suggested_answers : Option (List String)
  suggestedAnswers : Option (List String)
deriving Repr, DecidableEq

/-- A raw question with every field absent. -/
def emptyRawQuestion : RawQuestion :=
  { id := none, category := none, question := none, context := none
    priority_score := none, priorityScore := none, reasoning := none
    suggested_answers := none, suggestedAnswers := none }

/-- One element of `transformFollowupQuestions` (part_003 lines 396-406). -/
def transformFollowupQuestion (index : Nat) (q : RawQuestion) : FollowupQuestion :=
  { id := jsOrStr q.id ("question_" ++ toString index)
    category := jsOrStr q.category "General"
    question := jsOrStr q.question ""
    context := jsOrStr q.context ""
    priorityScore := jsOrInt q.priority_score (jsOrInt q.priorityScore 0)
    reasoning := jsOrStr q.reasoning ""
    suggestedAnswers := q.suggested_answers <|> q.suggestedAnswers }

/-- `transformFollowupQuestions` (part_003 lines 396-406). -/
def transformFollowupQuestions (questions : List RawQuestion) : List FollowupQuestion :=
  questions.mapIdx transformFollowupQuestion

/-- Raw storyline object. -/
structure RawStoryline where
  id : Option String
  title : Option String
  description : Option String
  chapters : Option (List String)
  temporal_range : Option TemporalRange
  temporalRange : Option TemporalRange
  confidence : Option Int
deriving Repr, DecidableEq

/-- A raw storyline with every field absent. -/
def emptyRawStoryline : RawStoryline :=
  { id := none, title := none, description := none, chapters := none
    temporal_range := none, temporalRange := none, confidence := none }

/-- One element of `transformStorylines` (part_003 lines 408-417). -/
def transformStoryline (index : Nat) (s : RawStoryline) : Storyline :=
  { id := jsOrStr s.id ("storyline_" ++ toString index)
    title := jsOrStr s.title ("Storyline " ++ toString (index + 1))
    description := jsOrStr s.description ""
    chapters := s.chapters.getD []
    temporalRange := (s.temporal_range <|> s.temporalRange).getD ⟨"", ""⟩
    confidence := jsOrInt s.confidence 0 }

/-- `transformStorylines` (part_003 lines 408-417). -/
def transformStorylines (storylines : List RawStoryline) : List Storyline :=
  storylines.mapIdx transformStoryline

/-- Raw graph summary object. -/
structure RawGraphSummary where
  total_nodes : Option Nat
  totalNodes : Option Nat
  total_edges : Option Nat
  totalEdges : Option Nat
  main_storylines : Option Nat
  mainStorylines : Option Nat
  temporal_span : Option String
  temporalSpan : Option String
  key_themes : Option (List String)
  keyThemes : Option (List String)
deriving Repr, DecidableEq

/-- A raw graph summary with every field absent (the `{}` default). -/
def emptyRawGraphSummary : RawGraphSummary :=
  { total_nodes := none, totalNodes := none, total_edges := none, totalEdges := none
    main_storylines := none, mainStorylines := none
    temporal_span := none, temporalSpan := none
    key_themes := none, keyThemes := none }

/-- `transformGraphSummary` (part_003 lines 419-427). -/
def transformGraphSummary (summary : RawGraphSummary) : GraphSummary :=
  { totalNodes := jsOrNat summary.total_nodes (jsOrNat summary.totalNodes 0)
    totalEdges := jsOrNat summary.total_edges (jsOrNat summary.totalEdges 0)
    mainStorylines := jsOrNat summary.main_storylines (jsOrNat summary.mainStorylines 0)
    temporalSpan := jsOrStr summary.temporal_span (jsOrStr summary.temporalSpan "")
    keyThemes := (summary.key_themes <|> summary.keyThemes).getD [] }

/-- Raw processing summary object. -/
structure RawProcessingSummary where
  total_processing_time : Option String
  totalProcessingTime : Option String
  audio_files_processed : Option Nat
  audioFilesProcessed : Option Nat
  transcription_accuracy : Option Int
  transcriptionAccuracy : Option Int
  chapters_generated : Option Nat
  chaptersGenerated : Option Nat
  words_generated : Option Nat
  wordsGenerated : Option Nat
  ai_agents_used : Option (List String)
  aiAgentsUsed : Option (List String)
deriving Repr, DecidableEq

/-- A raw processing summary with every field absent (the `{}` default). -/
def emptyRawProcessingSummary : RawProcessingSummary :=
  { total_processing_time := none, totalProcessingTime := none
    audio_files_processed := none, audioFilesProcessed := none
    transcription_accuracy := none, transcriptionAccuracy := none
    chapters_generated := none, chaptersGenerated := none
    words_generated := none, wordsGenerated := none
    ai_agents_used := none, aiAgentsUsed := none }

/-- `transformProcessingSummary` (part_003 lines 429-438). -/
def transformProcessingSummary (summary : RawProcessingSummary) : ProcessingSummary :=
  { totalProcessingTime :=
      jsOrStr summary.total_processing_time (jsOrStr summary.totalProcessingTime "")
    audioFilesProcessed :=
      jsOrNat summary.audio_files_processed (jsOrNat summary.audioFilesProcessed 0)
    transcriptionAccuracy :=
      jsOrInt summary.transcription_accuracy (jsOrInt summary.transcriptionAccuracy 0)
    chaptersGenerated :=
      jsOrNat summary.chapters_generated (jsOrNat summary.chaptersGenerated 0)
    wordsGenerated :=
      jsOrNat summary.words_generated (jsOrNat summary.wordsGenerated 0)
    aiAgentsUsed := (summary.ai_agents_used <|> summary.aiAgentsUsed).getD [] }

/-- Raw results payload.  Arrays and objects are truthy in JavaScript,
so only absence triggers the `||` defaults here. -/
structure RawResultsPayload where
  chapters : Option (List RawChapter)
  followup_questions : Option (List RawQuestion)
  followupQuestions : Option (List RawQuestion)
  question_categories : Option (List (String × List FollowupQuestion))
  questionCategories : Option (List (String × List FollowupQuestion))
  storylines : Option (List RawStoryline)
  graph_summary : Option RawGraphSummary
  graphSummary : Option RawGraphSummary
  processing_summary : Option RawProcessingSummary
  processingSummary : Option RawProcessingSummary
deriving Repr, DecidableEq

/-- A raw results payload with every field absent. -/
def emptyRawResults : RawResultsPayload :=
  { chapters := none, followup_questions := none, followupQuestions := none
    question_categories := none, questionCategories := none, storylines := none
    graph_summary := none, graphSummary := none
    processing_summary := none, processingSummary := none }

/-- The transformation block of `getResults` (part_003 lines 257-264):
transform and validate backend results. -/
def transformResults (resultsData : RawResultsPayload) : ProcessingResults :=
  { chapters := transformChapters (resultsData.chapters.getD [])
    followupQuestions :=
      transformFollowupQuestions
        ((resultsData.followup_questions <|> resultsData.followupQuestions).getD [])
    questionCategories :=
      (resultsData.question_categories <|> resultsData.questionCategories).getD []
    storylines := transformStorylines (resultsData.storylines.getD [])
    graphSummary :=
      transformGraphSummary
        ((resultsData.graph_summary <|> resultsData.graphSummary).getD emptyRawGraphSummary)
    processingSummary :=
      transformProcessingSummary
        ((resultsData.processing_summary <|> resultsData.processingSummary).getD
          emptyRawProcessingSummary) }

/-! ## `fetchWithRetry` (part_003 lines 342-371) and
`processAudioFromFirebase` (lines 128-187)

The transport is a script indexed by attempt number (starting at 1, as
in the source's `for` loop): each attempt either resolves with a
response (the `fetch` promise resolves even for non-2xx statuses) or
rejects with a transport/timeout error message. -/

/-- An HTTP response, with its parsed JSON body abstracted to the two
fields the service reads (a failed body parse is both fields absent,
matching `.json().catch(() => ({}))`). -/
structure HttpResponse where
  ok : Bool
  status : Nat
  detail : Option String
  sessionId : Option String
deriving Repr, DecidableEq

/-- Outcome of one `fetch` attempt. -/
inductive FetchAttempt where
  | resolve (resp : HttpResponse)
  | reject (msg : String)
deriving Repr, DecidableEq

/-- Service configuration (part_003 lines 103-122). -/
structure ServiceConfig where
  baseUrl : String
  timeout : Nat
  retryAttempts : Nat
  retryDelay : Nat
deriving Repr, DecidableEq

/-- The constructor defaults of `BackendAiService`. -/
def defaultConfig : ServiceConfig :=
  { baseUrl := "http://localhost:8000", timeout := 30000
    retryAttempts := 3, retryDelay := 1000 }

/-- `lastError?.message` (JavaScript optional chaining interpolates
`undefined` when the error is null). -/
def jsOptMessage : Option String → String
  | some m => m
  | none => "undefined"

/-- Decidable equality of settled promise values. -/
instance {ε α : Type} [DecidableEq ε] [DecidableEq α] : DecidableEq (Except ε α)
  | .error a, .error b =>
      if h : a = b then .isTrue (by rw [h]) else .isFalse (by intro hc; cases hc; exact h rfl)
  | .error _, .ok _ => .isFalse (by intro hc; cases hc)
  | .ok _, .error _ => .isFalse (by intro hc; cases hc)
  | .ok a, .ok b =>
      if h : a = b then .isTrue (by rw [h]) else .isFalse (by intro hc; cases hc; exact h rfl)

/-- Result of a `fetchWithRetry` run: the settled value, the number of
`fetch` calls made, and the backoff sleeps in order. -/
structure FetchRun where
  result : Except Err HttpResponse
  attemptsMade : Nat
  sleeps : List Nat
deriving Repr, DecidableEq

/-- The `for` loop of `fetchWithRetry`: `remaining` counts the loop
iterations still allowed, `attempt` is the current attempt number.
A backoff sleep of `retryDelay * attempt` occurs only when
`attempt < retryAttempts`, i.e. when another iteration remains. -/
def fetchWithRetryGo (cfg : ServiceConfig) (script : Nat → FetchAttempt) :
    Nat → Nat → Option String → FetchRun
  | 0, _, lastError =>
      { result := .error (.networkFail
          ("Network request failed after " ++ toString cfg.retryAttempts ++
            " attempts: " ++ jsOptMessage lastError))
        attemptsMade := 0, sleeps := [] }
  | remaining + 1, attempt, _ =>
      match script attempt with
      | .resolve resp => { result := .ok resp, attemptsMade := 1, sleeps := [] }
      | .reject m =>
          let rest := fetchWithRetryGo cfg script remaining (attempt + 1) (some m)
          { result := rest.result
            attemptsMade := rest.attemptsMade + 1
            sleeps := (if 0 < remaining then [cfg.retryDelay * attempt] else []) ++ rest.sleeps }

/-- `fetchWithRetry` (part_003 lines 342-371). -/
def fetchWithRetry (cfg : ServiceConfig) (script : Nat → FetchAttempt) : FetchRun :=
  fetchWithRetryGo cfg script cfg.retryAttempts 1 none

/-- `processAudioFromFirebase` (part_003 lines 128-187): validate
inputs, POST through `fetchWithRetry`, classify a non-2xx response after
body inspection, and extract the session id. -/
def processAudioFromFirebase (cfg : ServiceConfig) (audioUrls : List String)
    (chapterTitle chapterDescription : String) (script : Nat → FetchAttempt) :
    Except Err String :=
  if audioUrls.isEmpty then .error (.validation "No audio URLs provided")
  else if jsTrimEmpty chapterTitle then .error (.validation "Chapter title is required")
  else if jsTrimEmpty chapterDescription then
    .error (.validation "Chapter description is required")
  else
    match (fetchWithRetry cfg script).result with
    | .error e => .error e
    | .ok response =>
        if response.ok = false then
          .error (.networkHttp
            (jsOrStr response.detail
              ("HTTP " ++ toString response.status ++ ": Processing request failed"))
            response.status)
        else if (response.sessionId.getD "") = "" then
          .error (.invalidResponse "Invalid response: missing session ID")
        else .ok (response.sessionId.getD "")

/-! ## The monitor loop: `pollUntilComplete` (part_003 lines 284-338)

The loop's collaborators are call-indexed scripts: `pollScript i` is the
outcome of the `i`-th `monitorProcessing` call, `cbThrows i` is `some m`
when the `i`-th `onProgress` invocation throws an error with message
`m`, and `resScript r` is the outcome of the `r`-th `getResults` call.
Network calls are instantaneous under a controllable clock; the clock
advances only across `delay` sleeps, mirroring a fake-timer test
harness.  The recursion is fuel-indexed; `pollUntilComplete` supplies
`maxDuration + 1` fuel, which is shown sufficient whenever the poll
interval is positive. -/

/-- `maxConsecutiveErrors` (part_003 line 292). -/
def maxConsecutiveErrors : Nat := 5

/-- Scripted environment for one monitor run. -/
structure MonEnv where
  pollScript : Nat → Except Err ProcessingSession
  cbThrows : Nat → Option String
  resScript : Nat → Except Err ProcessingResults

/-- Loop state: elapsed milliseconds since `startTime`, the
`consecutiveErrors` counter, and the call counters for the scripts. -/
structure MonState where
  elapsed : Nat
  consecutiveErrors : Nat
  pollIdx : Nat
  resIdx : Nat
deriving Repr, DecidableEq

/-- Observable events of a monitor run. -/
inductive MonEvent where
  /-- A `monitorProcessing` status poll (the `i`-th). -/
  | poll (i : Nat)
  /-- An `onProgress` invocation with the session it was handed. -/
  | progress (s : ProcessingSession)
  /-- A `getResults` call (the `r`-th). -/
  | fetchResults (r : Nat)
  /-- A `delay` sleep with its duration in milliseconds. -/
  | sleep (ms : Nat)
  /-- An error reaching the loop's `catch` block. -/
  | caught (e : Err)
deriving Repr, DecidableEq, BEq

/-- A settled monitor run: its outcome and its event trace. -/
structure MonRun where
  outcome : Except Err ProcessingResults
  trace : List MonEvent
deriving Repr, DecidableEq

/-- Prefix a run's trace with earlier events. -/
def MonRun.prepend (evts : List MonEvent) (r : MonRun) : MonRun :=
  { r with trace := evts ++ r.trace }

/-- Number of status polls in a run. -/
def MonRun.pollCount (r : MonRun) : Nat :=
  r.trace.countP fun e => match e with | .poll _ => true | _ => false

/-- Number of `onProgress` invocations in a run. -/
def MonRun.progressCount (r : MonRun) : Nat :=
  r.trace.countP fun e => match e with | .progress _ => true | _ => false

/-- Number of `getResults` calls in a run. -/
def MonRun.resultFetchCount (r : MonRun) : Nat :=
  r.trace.countP fun e => match e with | .fetchResults _ => true | _ => false

/-- Number of times a given error reached the loop's `catch` block. -/
def MonRun.caughtCount (r : MonRun) (e : Err) : Nat :=
  r.trace.countP fun ev => match ev with | .caught e2 => e2 == e | _ => false

/-- The `while` loop of `pollUntilComplete` (part_003 lines 294-338).
Each arm mirrors the source: a successful poll resets
`consecutiveErrors` to 0 before `onProgress` runs; the `completed`
branch returns `getResults`; the `failed` branch throws a
`Processing failed: ...` error; every throw inside the `try` lands in
the loop's own `catch`, which increments the counter, raises the
exhaustion error at `maxConsecutiveErrors`, and otherwise sleeps twice
the poll interval before the next iteration. -/
def loopPoll (env : MonEnv) (sessionId : String) (pollInterval maxDuration : Nat) :
    Nat → MonState → Option MonRun
  | 0, _ => none
  | fuel + 1, st =>
    if st.elapsed < maxDuration then
      match env.pollScript st.pollIdx with
      | .error e =>
          let c := st.consecutiveErrors + 1
          if maxConsecutiveErrors ≤ c then
            some { outcome := .error (.pollingExhausted e.message)
                   trace := [.poll st.pollIdx, .caught e] }
          else
            (loopPoll env sessionId pollInterval maxDuration fuel
                { elapsed := st.elapsed + 2 * pollInterval, consecutiveErrors := c
                  pollIdx := st.pollIdx + 1, resIdx := st.resIdx }).map
              (MonRun.prepend [.poll st.pollIdx, .caught e, .sleep (2 * pollInterval)])
      | .ok session =>
          match env.cbThrows st.pollIdx with
          | some m =>
              let e := Err.jsError m
              let c := 0 + 1
              if maxConsecutiveErrors ≤ c then
                some { outcome := .error (.pollingExhausted e.message)
                       trace := [.poll st.pollIdx, .progress session, .caught e] }
              else
                (loopPoll env sessionId pollInterval maxDuration fuel
                    { elapsed := st.elapsed + 2 * pollInterval, consecutiveErrors := c
                      pollIdx := st.pollIdx + 1, resIdx := st.resIdx }).map
                  (MonRun.prepend
                    [.poll st.pollIdx, .progress session, .caught e,
                      .sleep (2 * pollInterval)])
          | none =>
              if session.status = .completed then
                match env.resScript st.resIdx with
                | .ok results =>
                    some { outcome := .ok results
                           trace := [.poll st.pollIdx, .progress session,
                             .fetchResults st.resIdx] }
                | .error e =>
                    let c := 0 + 1
                    if maxConsecutiveErrors ≤ c then
                      some { outcome := .error (.pollingExhausted e.message)
                             trace := [.poll st.pollIdx, .progress session,
                               .fetchResults st.resIdx, .caught e] }
                    else
                      (loopPoll env sessionId pollInterval maxDuration fuel
                          { elapsed := st.elapsed + 2 * pollInterval
                            consecutiveErrors := c
                            pollIdx := st.pollIdx + 1, resIdx := st.resIdx + 1 }).map
                        (MonRun.prepend
                          [.poll st.pollIdx, .progress session,
                            .fetchResults st.resIdx, .caught e,
                            .sleep (2 * pollInterval)])
              else if session.status = .failed then
                let errorMessage :=
                  if 0 < session.errors.length then String.intercalate ", " session.errors
                  else "Processing failed without specific error details"
                let e := Err.processingFailed errorMessage
                let c := 0 + 1
                if maxConsecutiveErrors ≤ c then
                  some { outcome := .error (.pollingExhausted e.message)
                         trace := [.poll st.pollIdx, .progress session, .caught e] }
                else
                  (loopPoll env sessionId pollInterval maxDuration fuel
                      { elapsed := st.elapsed + 2 * pollInterval, consecutiveErrors := c
                        pollIdx := st.pollIdx + 1, resIdx := st.resIdx }).map
                    (MonRun.prepend
                      [.poll st.pollIdx, .progress session, .caught e,
                        .sleep (2 * pollInterval)])
              else
                (loopPoll env sessionId pollInterval maxDuration fuel
                    { elapsed := st.elapsed + pollInterval, consecutiveErrors := 0
                      pollIdx := st.pollIdx + 1, resIdx := st.resIdx }).map
                  (MonRun.prepend
                    [.poll st.pollIdx, .progress session, .sleep pollInterval])
    else
      some { outcome := .error (.processingTimeout sessionId), trace := [] }

/-- `pollUntilComplete` (part_003 lines 284-338), over a scripted
environment, with the source's parameter defaults supplied by callers
(`pollInterval = 5000`, `maxDuration = 600000`). -/
def pollUntilComplete (env : MonEnv) (sessionId : String)
    (pollInterval maxDuration : Nat) : Option MonRun :=
  loopPoll env sessionId pollInterval maxDuration (maxDuration + 1)
    { elapsed := 0, consecutiveErrors := 0, pollIdx := 0, resIdx := 0 }

/-! ## Concrete fixtures used to evaluate the embedding -/

/-- A non-terminal session, as the normalizer produces for a remote that
keeps reporting `processing`. -/
def procSession : ProcessingSession :=
  { sessionId := "session-1", status := .processing, currentStage := "Processing..."
    progressPercentage := 10, currentTask := "Initializing..."
    estimatedCompletion := none, errors := [] }

/-- A terminal `completed` session. -/
def completedSession : ProcessingSession :=
  { sessionId := "session-1", status := .completed, currentStage := "Done"
    progressPercentage := 100, currentTask := "Done"
    estimatedCompletion := none, errors := [] }

/-- A terminal `failed` session whose remote error list is
`["disk full"]`. -/
def failedSession : ProcessingSession :=
  { sessionId := "session-1", status := .failed, currentStage := "Generation"
    progressPercentage := 40, currentTask := "Generating chapters"
    estimatedCompletion := none, errors := ["disk full"] }

/-- A concrete canonical results value. -/
def sampleResults : ProcessingResults :=
  { chapters := [], followupQuestions := [], questionCategories := []
    storylines := []
    graphSummary := { totalNodes := 0, totalEdges := 0, mainStorylines := 0
                      temporalSpan := "", keyThemes := [] }
    processingSummary := { totalProcessingTime := "", audioFilesProcessed := 0
                           transcriptionAccuracy := 0, chaptersGenerated := 0
                           wordsGenerated := 0, aiAgentsUsed := [] } }

/-- Environment whose every status poll reports the `failed` session. -/
def envAlwaysFailed : MonEnv :=
  { pollScript := fun _ => .ok failedSession
    cbThrows := fun _ => none
    resScript := fun _ => .error (.networkFail "unused") }

/-- Environment whose every status poll reports `processing`. -/
def envAlwaysProcessing : MonEnv :=
  { pollScript := fun _ => .ok procSession
    cbThrows := fun _ => none
    resScript := fun _ => .error (.networkFail "unused") }

/-- Environment whose polls report `completed` but whose first results
fetch rejects with a transport-level `NetworkError`. -/
def envResultsFailOnce : MonEnv :=
  { pollScript := fun _ => .ok completedSession
    cbThrows := fun _ => none
    resScript := fun r =>
      if r = 0 then .error (.networkFail "connection reset") else .ok sampleResults }

/-- Environment whose polls report `processing` and whose `onProgress`
callback always throws. -/
def envCallbackAlwaysThrows : MonEnv :=
  { pollScript := fun _ => .ok procSession
    cbThrows := fun _ => some "callback exploded"
    resScript := fun _ => .error (.networkFail "unused") }

/-- Environment whose polls report `completed`, whose `onProgress`
throws only on its first invocation, and whose results fetch succeeds. -/
def envCallbackThrowsOnce : MonEnv :=
  { pollScript := fun _ => .ok completedSession
    cbThrows := fun i => if i = 0 then some "callback exploded" else none
    resScript := fun _ => .ok sampleResults }

/-- A non-2xx HTTP response whose body carries a server-supplied
`detail` message. -/
def badResp : HttpResponse :=
  { ok := false, status := 500, detail := some "model overloaded", sessionId := none }

/-! ## Unfolding lemmas: one loop iteration per branch of the source -/

/-- Mapping over a settled option preserves settledness. -/
lemma map_isSome {A B : Type} (f : A -> B) (o : Option A) :
    (Option.map f o).isSome = o.isSome := by
  cases o <;> rfl

/-- Loop-guard exit: elapsed time has reached `maxDuration`. -/
lemma loopPoll_timeout (env : MonEnv) (sid : String) (p maxD fuel : Nat) (st : MonState)
    (ht : ¬ st.elapsed < maxD) :
    loopPoll env sid p maxD (fuel + 1) st =
      some { outcome := .error (.processingTimeout sid), trace := [] } := by
  rw [loopPoll]
  simp [ht]

/-- A failed poll below the error budget: count it, sleep twice the
interval, continue. -/
lemma loopPoll_pollError (env : MonEnv) (sid : String) (p maxD fuel : Nat) (st : MonState)
    (e : Err)
    (ht : st.elapsed < maxD) (hps : env.pollScript st.pollIdx = .error e)
    (hc : st.consecutiveErrors + 1 < maxConsecutiveErrors) :
    loopPoll env sid p maxD (fuel + 1) st =
      (loopPoll env sid p maxD fuel
          { elapsed := st.elapsed + 2 * p, consecutiveErrors := st.consecutiveErrors + 1
            pollIdx := st.pollIdx + 1, resIdx := st.resIdx }).map
        (MonRun.prepend [.poll st.pollIdx, .caught e, .sleep (2 * p)]) := by
  rw [loopPoll]
  simp [ht, hps, Nat.not_le.mpr hc]

/-- A failed poll that exhausts the error budget: reject with the
exhaustion error wrapping the last error's message. -/
lemma loopPoll_pollError_exhaust (env : MonEnv) (sid : String) (p maxD fuel : Nat)
    (st : MonState) (e : Err)
    (ht : st.elapsed < maxD) (hps : env.pollScript st.pollIdx = .error e)
    (hc : maxConsecutiveErrors ≤ st.consecutiveErrors + 1) :
    loopPoll env sid p maxD (fuel + 1) st =
      some { outcome := .error (.pollingExhausted e.message)
             trace := [.poll st.pollIdx, .caught e] } := by
  rw [loopPoll]
  simp [ht, hps, hc]

/-- A successful poll whose `onProgress` invocation throws: the throw is
caught, the counter (reset by the successful poll) becomes 1, the loop
sleeps twice the interval and continues. -/
lemma loopPoll_cbThrow (env : MonEnv) (sid : String) (p maxD fuel : Nat) (st : MonState)
    (s : ProcessingSession) (m : String)
    (ht : st.elapsed < maxD) (hps : env.pollScript st.pollIdx = .ok s)
    (hcb : env.cbThrows st.pollIdx = some m) :
    loopPoll env sid p maxD (fuel + 1) st =
      (loopPoll env sid p maxD fuel
          { elapsed := st.elapsed + 2 * p, consecutiveErrors := 1
            pollIdx := st.pollIdx + 1, resIdx := st.resIdx }).map
        (MonRun.prepend [.poll st.pollIdx, .progress s, .caught (.jsError m),
          .sleep (2 * p)]) := by
  rw [loopPoll]
  simp [ht, hps, hcb, maxConsecutiveErrors]

/-- A `completed` poll whose results fetch succeeds: resolve. -/
lemma loopPoll_completed_ok (env : MonEnv) (sid : String) (p maxD fuel : Nat)
    (st : MonState) (s : ProcessingSession) (results : ProcessingResults)
    (ht : st.elapsed < maxD) (hps : env.pollScript st.pollIdx = .ok s)
    (hcb : env.cbThrows st.pollIdx = none) (hcs : s.status = .completed)
    (hres : env.resScript st.resIdx = .ok results) :
    loopPoll env sid p maxD (fuel + 1) st =
      some { outcome := .ok results
             trace := [.poll st.pollIdx, .progress s, .fetchResults st.resIdx] } := by
  rw [loopPoll]
  simp [ht, hps, hcb, hcs, hres]

/-- A `completed` poll whose results fetch fails: the failure is caught
by the loop's own `catch`, counted, and retried after the long sleep. -/
lemma loopPoll_completed_err (env : MonEnv) (sid : String) (p maxD fuel : Nat)
    (st : MonState) (s : ProcessingSession) (e : Err)
    (ht : st.elapsed < maxD) (hps : env.pollScript st.pollIdx = .ok s)
    (hcb : env.cbThrows st.pollIdx = none) (hcs : s.status = .completed)
    (hres : env.resScript st.resIdx = .error e) :
    loopPoll env sid p maxD (fuel + 1) st =
      (loopPoll env sid p maxD fuel
          { elapsed := st.elapsed + 2 * p, consecutiveErrors := 1
            pollIdx := st.pollIdx + 1, resIdx := st.resIdx + 1 }).map
        (MonRun.prepend [.poll st.pollIdx, .progress s, .fetchResults st.resIdx,
          .caught e, .sleep (2 * p)]) := by
  rw [loopPoll]
  simp [ht, hps, hcb, hcs, hres, maxConsecutiveErrors]

/-- A `failed` poll: the `Processing failed: ...` error thrown inside
the `try` lands in the loop's own `catch`, is counted, and the loop
sleeps twice the interval and polls again. -/
lemma loopPoll_failed (env : MonEnv) (sid : String) (p maxD fuel : Nat)
    (st : MonState) (s : ProcessingSession)
    (ht : st.elapsed < maxD) (hps : env.pollScript st.pollIdx = .ok s)
    (hcb : env.cbThrows st.pollIdx = none) (hcs : s.status = .failed) :
    loopPoll env sid p maxD (fuel + 1) st =
      (loopPoll env sid p maxD fuel
          { elapsed := st.elapsed + 2 * p, consecutiveErrors := 1
            pollIdx := st.pollIdx + 1, resIdx := st.resIdx }).map
        (MonRun.prepend [.poll st.pollIdx, .progress s,
          .caught (.processingFailed
            (if 0 < s.errors.length then String.intercalate ", " s.errors
             else "Processing failed without specific error details")),
          .sleep (2 * p)]) := by
  rw [loopPoll]
  simp [ht, hps, hcb, hcs, maxConsecutiveErrors]

/-- A successful non-terminal poll: reset the counter to 0, notify,
sleep one interval, continue. -/
lemma loopPoll_processing (env : MonEnv) (sid : String) (p maxD fuel : Nat) (st : MonState)
    (s : ProcessingSession)
    (ht : st.elapsed < maxD) (hps : env.pollScript st.pollIdx = .ok s)
    (hcb : env.cbThrows st.pollIdx = none)
    (h1 : s.status ≠ .completed) (h2 : s.status ≠ .failed) :
    loopPoll env sid p maxD (fuel + 1) st =
      (loopPoll env sid p maxD fuel
          { elapsed := st.elapsed + p, consecutiveErrors := 0
            pollIdx := st.pollIdx + 1, resIdx := st.resIdx }).map
        (MonRun.prepend [.poll st.pollIdx, .progress s, .sleep p]) := by
  rw [loopPoll]
  simp [ht, hps, hcb, h1, h2]

/-- Every iteration either settles the run or advances the clock by at
least one poll interval, so `maxDuration + 1` fuel always suffices: the
loop settles on every environment. -/
lemma loopPoll_isSome (env : MonEnv) (sid : String) (p maxD : Nat) (hp : 1 ≤ p) :
    ∀ fuel st, maxD - st.elapsed < fuel →
      (loopPoll env sid p maxD fuel st).isSome = true := by
  intro fuel
  induction fuel with
  | zero => intro st h; omega
  | succ f ih =>
    intro st h
    by_cases ht : st.elapsed < maxD
    · rcases hps : env.pollScript st.pollIdx with e | s
      · by_cases hc : maxConsecutiveErrors ≤ st.consecutiveErrors + 1
        · rw [loopPoll_pollError_exhaust env sid p maxD f st e ht hps hc]; rfl
        · rw [loopPoll_pollError env sid p maxD f st e ht hps (by omega)]
          rw [map_isSome]
          exact ih _ (by dsimp only; omega)
      · rcases hcb : env.cbThrows st.pollIdx with _ | m
        · by_cases hcs : s.status = .completed
          · rcases hres : env.resScript st.resIdx with e | results
            · rw [loopPoll_completed_err env sid p maxD f st s e ht hps hcb hcs hres]
              rw [map_isSome]
              exact ih _ (by dsimp only; omega)
            · rw [loopPoll_completed_ok env sid p maxD f st s results ht hps hcb hcs hres]
              rfl
          · by_cases hcf : s.status = .failed
            · rw [loopPoll_failed env sid p maxD f st s ht hps hcb hcf]
              rw [map_isSome]
              exact ih _ (by dsimp only; omega)
            · rw [loopPoll_processing env sid p maxD f st s ht hps hcb hcs hcf]
              rw [map_isSome]
              exact ih _ (by dsimp only; omega)
        · rw [loopPoll_cbThrow env sid p maxD f st s m ht hps hcb]
          rw [map_isSome]
          exact ih _ (by dsimp only; omega)
    · rw [loopPoll_timeout env sid p maxD f st ht]; rfl

/-- When every poll yields a non-terminal session and the callback never
throws, the loop runs until the duration budget is exhausted and settles
with the timeout rejection. -/
lemma loopPoll_nonterminal_timeout (env : MonEnv) (sid : String) (p maxD : Nat)
    (hp : 1 ≤ p)
    (hpoll : ∀ i, ∃ s, env.pollScript i = .ok s ∧ s.status ≠ .completed ∧ s.status ≠ .failed)
    (hcb : ∀ i, env.cbThrows i = none) :
    ∀ fuel st, maxD - st.elapsed < fuel →
      ∃ tr, loopPoll env sid p maxD fuel st =
        some { outcome := .error (.processingTimeout sid), trace := tr } := by
  intro fuel
  induction fuel with
  | zero => intro st h; omega
  | succ f ih =>
    intro st h
    by_cases ht : st.elapsed < maxD
    · obtain ⟨s, hps, h1, h2⟩ := hpoll st.pollIdx
      rw [loopPoll_processing env sid p maxD f st s ht hps (hcb st.pollIdx) h1 h2]
      obtain ⟨tr, htr⟩ := ih
        { elapsed := st.elapsed + p, consecutiveErrors := 0
          pollIdx := st.pollIdx + 1, resIdx := st.resIdx } (by dsimp only; omega)
      rw [htr]
      exact ⟨_, rfl⟩
    · exact ⟨[], loopPoll_timeout env sid p maxD f st ht⟩

/-- The `for` loop of `fetchWithRetry` makes at most `remaining` calls. -/
lemma fetchWithRetryGo_attempts_le (cfg : ServiceConfig) (script : Nat → FetchAttempt) :
    ∀ remaining attempt lastError,
      (fetchWithRetryGo cfg script remaining attempt lastError).attemptsMade ≤ remaining := by
  intro remaining
  induction remaining with
  | zero => intro attempt lastError; simp [fetchWithRetryGo]
  | succ r ih =>
    intro attempt lastError
    rw [fetchWithRetryGo]
    rcases script attempt with resp | m
    · simp
    · simpa using ih (attempt + 1) (some m)

/-! ## Claim theorems -/

set_option maxRecDepth 10000

/-- C6.  Status normalization lower-cases the remote string; a value
whose lower-casing is in the canonical enumeration is preserved, and
every other value normalizes to `processing` (so never to a terminal
state). -/
theorem normalizeStatus_canonical : ∀ s : String,
    (normalizeStatus s).toStr =
      (if s.toLower ∈ canonicalStatuses then s.toLower else "processing") := by
  intro s
  unfold normalizeStatus canonicalStatuses
  by_cases h1 : s.toLower = "completed" <;>
    by_cases h2 : s.toLower = "failed" <;>
      by_cases h3 : s.toLower = "pending" <;>
        by_cases h4 : s.toLower = "initializing" <;>
          by_cases h5 : s.toLower = "processing" <;>
            simp_all [Status.toStr]

/-- C7.  For every raw status payload the normalized session's
`progressPercentage` lies in `[0, 100]`, and when both progress fields
are absent it defaults to 0. -/
theorem progressPercentage_clamped :
    (∀ (sid : String) (d : RawStatusPayload),
      0 ≤ (normalizeSession sid d).progressPercentage ∧
        (normalizeSession sid d).progressPercentage ≤ 100) ∧
    (∀ sid : String, (normalizeSession sid emptyRawStatus).progressPercentage = 0) := by
  constructor
  · intro sid d
    exact ⟨le_min (by norm_num) (le_max_left 0 _), min_le_left _ _⟩
  · intro sid
    rfl

/-- C9 counterexample.  The claim that every missing string field
defaults to the empty string is false: a chapter with no `id` gets the
positional label `chapter_0` (and a question with no `category` gets
`General`), not `""`. -/
theorem transform_labeled_defaults_counterexample :
    (transformChapters [emptyRawChapter]).map Chapter.id = ["chapter_0"] ∧
    ¬ ("chapter_0" = "") ∧
    (transformFollowupQuestions [emptyRawQuestion]).map FollowupQuestion.category =
      ["General"] ∧
    ¬ ("General" = "") := by
  decide

/-- C9 (amended).  The result transformation is total (every transform
is a total function of the raw payload) and fills missing fields as the
code does: numeric fields default to 0 except `estimatedReadingTime`,
which is derived from the content at 200 words per minute rounded up;
array fields default to `[]`; most string fields default to `""`, but
identifier/title/category fields get positional or generic labels, and
the optional `qualityScore`/`suggestedAnswers` stay absent. -/
theorem transform_field_defaults :
    (∀ i : Nat, transformChapter i emptyRawChapter =
      { id := "chapter_" ++ toString i, title := "Chapter " ++ toString (i + 1)
        content := "", qualityScore := none, themes := [], participants := []
        temporalMarkers := [], wordCount := 0, estimatedReadingTime := 0 }) ∧
    (∀ (i : Nat) (s : String),
      (transformChapter i { emptyRawChapter with content := some s }).wordCount =
          jsSplitLen s ∧
        (transformChapter i
            { emptyRawChapter with content := some s }).estimatedReadingTime =
          (jsSplitLen s + 199) / 200) ∧
    (∀ i : Nat, transformFollowupQuestion i emptyRawQuestion =
      { id := "question_" ++ toString i, category := "General", question := ""
        context := "", priorityScore := 0, reasoning := "", suggestedAnswers := none }) ∧
    (∀ i : Nat, transformStoryline i emptyRawStoryline =
      { id := "storyline_" ++ toString i, title := "Storyline " ++ toString (i + 1)
        description := "", chapters := [], temporalRange := ⟨"", ""⟩
        confidence := 0 }) ∧
    (transformGraphSummary emptyRawGraphSummary =
      { totalNodes := 0, totalEdges := 0, mainStorylines := 0, temporalSpan := ""
        keyThemes := [] }) ∧
    (transformProcessingSummary emptyRawProcessingSummary =
      { totalProcessingTime := "", audioFilesProcessed := 0, transcriptionAccuracy := 0
        chaptersGenerated := 0, wordsGenerated := 0, aiAgentsUsed := [] }) ∧
    (transformResults emptyRawResults =
      { chapters := [], followupQuestions := [], questionCategories := []
        storylines := []
        graphSummary := { totalNodes := 0, totalEdges := 0, mainStorylines := 0
                          temporalSpan := "", keyThemes := [] }
        processingSummary := { totalProcessingTime := "", audioFilesProcessed := 0
                               transcriptionAccuracy := 0, chaptersGenerated := 0
                               wordsGenerated := 0, aiAgentsUsed := [] } }) := by
  refine ⟨fun i => rfl, fun i s => ⟨?_, ?_⟩, fun i => rfl, fun i => rfl, rfl, rfl, rfl⟩
  · simp [transformChapter, emptyRawChapter, jsOrNat, jsSplitLen]
  · simp [transformChapter, emptyRawChapter, jsOrNat, jsSplitLen]

/-- C8 counterexample.  With the default configuration (3 attempts,
base delay 1000 ms) and an always-failing transport, the inter-attempt
sleeps are exactly 1 s then 2 s: no 3 s backoff sleep ever occurs, so
the gloss "1s, 2s, 3s between attempts" does not match the code. -/
theorem backoff_no_third_sleep_counterexample :
    (fetchWithRetry defaultConfig (fun _ => .reject "timed out")).sleeps = [1000, 2000] ∧
    ¬ (3000 ∈ (fetchWithRetry defaultConfig (fun _ => .reject "timed out")).sleeps) := by
  decide

/-- C8 (amended).  `fetchWithRetry` makes at most `retryAttempts` fetch
calls; a resolved response (2xx or not) on the first attempt ends the
loop immediately with that response and no sleeps; with the default 3
attempts and every attempt rejecting, it sleeps `retryDelay * 1` then
`retryDelay * 2` (no third sleep) and raises the `NetworkError` wrapping
the last error's message; and a non-2xx response is surfaced by
`processAudioFromFirebase` as a classified error built from the
response body after inspection. -/
theorem fetchWithRetry_policy :
    (∀ (cfg : ServiceConfig) (script : Nat → FetchAttempt),
      (fetchWithRetry cfg script).attemptsMade ≤ cfg.retryAttempts) ∧
    (∀ (cfg : ServiceConfig) (script : Nat → FetchAttempt) (resp : HttpResponse),
      1 ≤ cfg.retryAttempts → script 1 = .resolve resp →
      fetchWithRetry cfg script =
        { result := .ok resp, attemptsMade := 1, sleeps := [] }) ∧
    (∀ (d : Nat) (script : Nat → FetchAttempt) (m1 m2 m3 : String),
      script 1 = .reject m1 → script 2 = .reject m2 → script 3 = .reject m3 →
      fetchWithRetry { defaultConfig with retryDelay := d } script =
        { result := .error (.networkFail
            ("Network request failed after 3 attempts: " ++ m3))
          attemptsMade := 3, sleeps := [d * 1, d * 2] }) ∧
    (∀ (cfg : ServiceConfig) (urls : List String) (t desc : String)
        (script : Nat → FetchAttempt) (resp : HttpResponse),
      1 ≤ cfg.retryAttempts → script 1 = .resolve resp → resp.ok = false →
      urls ≠ [] → jsTrimEmpty t = false → jsTrimEmpty desc = false →
      processAudioFromFirebase cfg urls t desc script =
        .error (.networkHttp
          (jsOrStr resp.detail
            ("HTTP " ++ toString resp.status ++ ": Processing request failed"))
          resp.status)) := by
  have h2 : ∀ (cfg : ServiceConfig) (script : Nat → FetchAttempt) (resp : HttpResponse),
      1 ≤ cfg.retryAttempts → script 1 = .resolve resp →
      fetchWithRetry cfg script =
        { result := .ok resp, attemptsMade := 1, sleeps := [] } := by
    intro cfg script resp hn hs
    obtain ⟨n, hn'⟩ : ∃ n, cfg.retryAttempts = n + 1 := ⟨cfg.retryAttempts - 1, by omega⟩
    rw [fetchWithRetry, hn', fetchWithRetryGo, hs]
  refine ⟨?_, h2, ?_, ?_⟩
  · intro cfg script
    rw [fetchWithRetry]
    exact fetchWithRetryGo_attempts_le cfg script cfg.retryAttempts 1 none
  · intro d script m1 m2 m3 h1 h2' h3
    simp [fetchWithRetry, fetchWithRetryGo, defaultConfig, h1, h2', h3, jsOptMessage]
    rfl
  · intro cfg urls t desc script resp hra hs hok hurls ht hdesc
    have hf := h2 cfg script resp hra hs
    simp [processAudioFromFirebase, hf, hok, ht, hdesc, List.isEmpty_iff, hurls]

/-- Witness for `fetchWithRetry_policy` at concrete inputs. -/
theorem fetchWithRetry_policy_witness :
    (1 ≤ defaultConfig.retryAttempts) ∧
    (fetchWithRetry { defaultConfig with retryDelay := 1000 }
        (fun _ => .reject "timed out") =
      { result := .error (.networkFail
          ("Network request failed after 3 attempts: " ++ "timed out"))
        attemptsMade := 3, sleeps := [1000 * 1, 1000 * 2] }) ∧
    (processAudioFromFirebase defaultConfig ["https://a/b.mp3"] "Title" "Desc"
        (fun _ => .resolve badResp) =
      .error (.networkHttp
        (jsOrStr badResp.detail
          ("HTTP " ++ toString badResp.status ++ ": Processing request failed"))
        badResp.status)) :=
  ⟨by decide,
    fetchWithRetry_policy.2.2.1 1000 (fun _ => .reject "timed out")
      "timed out" "timed out" "timed out" rfl rfl rfl,
    fetchWithRetry_policy.2.2.2 defaultConfig ["https://a/b.mp3"] "Title" "Desc"
      (fun _ => .resolve badResp) badResp (by decide) rfl rfl (by decide)
      (by decide) (by decide)⟩

/-- C1 (code-bug evidence).  With every poll reporting the terminal
`failed` session carrying `errors = ["disk full"]` and the source's
default interval and duration, the monitor does NOT reject immediately
with the `Processing failed: disk full` error: that error is thrown
inside the loop's own `try`, caught by its `catch` 60 times (each
successful poll having reset `consecutiveErrors` to 0 first), and the
run finally rejects with `ProcessingTimeoutError` after 60 polls and 60
`onProgress` deliveries of the failed session. -/
theorem failed_status_retried_until_timeout :
    (pollUntilComplete envAlwaysFailed "session-1" 5000 600000).map
        (fun r => (r.outcome, r.pollCount, r.progressCount,
          r.caughtCount (.processingFailed "disk full"))) =
      some (.error (.processingTimeout "session-1"), 60, 60, 60) := by
  decide

/-- C2 (code-bug evidence).  The monitor offers no cancellation input:
its settled outcome is a total function of the scripted environment and
the configuration alone, so for every environment the run polls,
notifies and settles regardless of any caller-side loss of interest. -/
theorem monitor_settles_without_cancellation (env : MonEnv) (sid : String)
    (p maxD : Nat) (hp : 1 ≤ p) :
    (pollUntilComplete env sid p maxD).isSome = true :=
  loopPoll_isSome env sid p maxD hp (maxD + 1) _ (by dsimp only; omega)

/-- Witness for `monitor_settles_without_cancellation`. -/
theorem monitor_settles_without_cancellation_witness :
    (1 ≤ 5000) ∧
    (pollUntilComplete envAlwaysProcessing "session-1" 5000 600000).isSome = true :=
  ⟨by decide,
    monitor_settles_without_cancellation envAlwaysProcessing "session-1" 5000 600000
      (by decide)⟩

/-- C3.  When every status poll fails, the monitor makes exactly five
polls — rejecting with the exhaustion error wrapping the fifth (last)
error's message, with a `2 * pollInterval` sleep after each of the four
retried failures — and a successful non-terminal poll resets the
consecutive-error counter to 0 whatever its previous value. -/
theorem polling_exhausted_after_five_failures (p maxD : Nat) (errs : Nat → Err)
    (sid : String) (hp : 1 ≤ p) (hD : 8 * p < maxD) :
    (pollUntilComplete
        { pollScript := fun i => .error (errs i), cbThrows := fun _ => none
          resScript := fun _ => .error (.networkFail "unused") } sid p maxD =
      some { outcome := .error (.pollingExhausted (errs 4).message)
             trace := [.poll 0, .caught (errs 0), .sleep (2 * p),
                       .poll 1, .caught (errs 1), .sleep (2 * p),
                       .poll 2, .caught (errs 2), .sleep (2 * p),
                       .poll 3, .caught (errs 3), .sleep (2 * p),
                       .poll 4, .caught (errs 4)] }) ∧
    (∀ (env : MonEnv) (fuel : Nat) (st : MonState) (s : ProcessingSession),
      st.elapsed < maxD → env.pollScript st.pollIdx = .ok s →
      env.cbThrows st.pollIdx = none → s.status ≠ .completed → s.status ≠ .failed →
      loopPoll env sid p maxD (fuel + 1) st =
        (loopPoll env sid p maxD fuel
            { elapsed := st.elapsed + p, consecutiveErrors := 0
              pollIdx := st.pollIdx + 1, resIdx := st.resIdx }).map
          (MonRun.prepend [.poll st.pollIdx, .progress s, .sleep p])) := by
  constructor
  · obtain ⟨M, rfl⟩ : ∃ M, maxD = M + 9 := ⟨maxD - 9, by omega⟩
    rw [pollUntilComplete]
    rw [loopPoll_pollError _ _ _ _ _ _ (errs 0) (by dsimp only; omega) rfl
      (by dsimp only [maxConsecutiveErrors]; omega)]
    dsimp only
    try simp only [Nat.zero_add, Nat.add_zero]
    rw [loopPoll_pollError _ _ _ _ _ _ (errs 1) (by dsimp only; omega) rfl
      (by dsimp only [maxConsecutiveErrors]; omega)]
    dsimp only
    try simp only [Nat.zero_add, Nat.add_zero]
    rw [loopPoll_pollError _ _ _ _ _ _ (errs 2) (by dsimp only; omega) rfl
      (by dsimp only [maxConsecutiveErrors]; omega)]
    dsimp only
    try simp only [Nat.zero_add, Nat.add_zero]
    rw [loopPoll_pollError _ _ _ _ _ _ (errs 3) (by dsimp only; omega) rfl
      (by dsimp only [maxConsecutiveErrors]; omega)]
    dsimp only
    try simp only [Nat.zero_add, Nat.add_zero]
    rw [loopPoll_pollError_exhaust _ _ _ _ _ _ (errs 4) (by dsimp only; omega) rfl
      (by dsimp only [maxConsecutiveErrors]; omega)]
    simp [MonRun.prepend]
  · intro env fuel st s ht hps hcb h1 h2
    exact loopPoll_processing env sid p maxD fuel st s ht hps hcb h1 h2

/-- Witness for `polling_exhausted_after_five_failures`. -/
theorem polling_exhausted_after_five_failures_witness :
    (1 ≤ 5000) ∧ (8 * 5000 < 600000) ∧
    pollUntilComplete
        { pollScript := fun _ => .error (.networkFail "timed out")
          cbThrows := fun _ => none
          resScript := fun _ => .error (.networkFail "unused") }
        "session-1" 5000 600000 =
      some { outcome := .error (.pollingExhausted "timed out")
             trace := [.poll 0, .caught (.networkFail "timed out"), .sleep (2 * 5000),
                       .poll 1, .caught (.networkFail "timed out"), .sleep (2 * 5000),
                       .poll 2, .caught (.networkFail "timed out"), .sleep (2 * 5000),
                       .poll 3, .caught (.networkFail "timed out"), .sleep (2 * 5000),
                       .poll 4, .caught (.networkFail "timed out")] } :=
  ⟨by decide, by decide,
    (polling_exhausted_after_five_failures 5000 600000
      (fun _ => .networkFail "timed out") "session-1" (by decide) (by decide)).1⟩

/-- C4.  Whenever every poll yields a successful non-terminal session
and the callback never throws, the monitor settles by rejecting with
`ProcessingTimeoutError` once the elapsed time reaches `maxDuration`. -/
theorem nonterminal_polling_times_out (env : MonEnv) (sid : String) (p maxD : Nat)
    (hp : 1 ≤ p)
    (hpoll : ∀ i, ∃ s, env.pollScript i = .ok s ∧
      s.status ≠ .completed ∧ s.status ≠ .failed)
    (hcb : ∀ i, env.cbThrows i = none) :
    ∃ tr, pollUntilComplete env sid p maxD =
      some { outcome := .error (.processingTimeout sid), trace := tr } :=
  loopPoll_nonterminal_timeout env sid p maxD hp hpoll hcb (maxD + 1) _
    (by dsimp only; omega)

/-- Witness for `nonterminal_polling_times_out`: the spec's own test
scenario (`maxDurationMs = 1000`, `pollIntervalMs = 5000`, remote always
`processing`). -/
theorem nonterminal_polling_times_out_witness :
    (1 ≤ 5000) ∧
    (∀ i : Nat, ∃ s, envAlwaysProcessing.pollScript i = .ok s ∧
      s.status ≠ .completed ∧ s.status ≠ .failed) ∧
    (∀ i : Nat, envAlwaysProcessing.cbThrows i = none) ∧
    ∃ tr, pollUntilComplete envAlwaysProcessing "session-1" 5000 1000 =
      some { outcome := .error (.processingTimeout "session-1"), trace := tr } :=
  ⟨by decide, fun _ => ⟨procSession, rfl, by decide, by decide⟩, fun _ => rfl,
    nonterminal_polling_times_out envAlwaysProcessing "session-1" 5000 1000 (by decide)
      (fun _ => ⟨procSession, rfl, by decide, by decide⟩) (fun _ => rfl)⟩

/-- C5 counterexample.  With polls reporting `completed` and the first
results fetch rejecting, the monitor fetches the results twice — not
exactly once — and the fetch failure does not propagate: the run
resolves with the results of the second fetch. -/
theorem results_fetch_retried_counterexample :
    (pollUntilComplete envResultsFailOnce "session-1" 5000 600000).map
        (fun r => (r.outcome, r.resultFetchCount)) =
      some (.ok sampleResults, 2) ∧
    ¬ ((pollUntilComplete envResultsFailOnce "session-1" 5000 600000).map
        MonRun.resultFetchCount = some 1) := by
  decide

/-- C5 (amended).  A failing final results fetch is caught by the poll
loop like any polling error: it is counted, the loop sleeps
`2 * pollInterval`, re-polls (which resets the counter) and fetches the
results again, so the fetch can run multiple times and a transient
failure never propagates to the caller. -/
theorem results_fetch_failure_requeued (p maxD : Nat) (e : Err)
    (R : ProcessingResults) (sid : String) (hp : 1 ≤ p) (hD : 2 * p < maxD) :
    pollUntilComplete
        { pollScript := fun _ => .ok completedSession, cbThrows := fun _ => none
          resScript := fun r => if r = 0 then .error e else .ok R } sid p maxD =
      some { outcome := .ok R
             trace := [.poll 0, .progress completedSession, .fetchResults 0, .caught e,
                       .sleep (2 * p), .poll 1, .progress completedSession,
                       .fetchResults 1] } := by
  obtain ⟨M, rfl⟩ : ∃ M, maxD = M + 3 := ⟨maxD - 3, by omega⟩
  rw [pollUntilComplete]
  rw [loopPoll_completed_err _ _ _ _ _ _ completedSession e (by dsimp only; omega) rfl rfl
    rfl rfl]
  dsimp only
  try simp only [Nat.zero_add, Nat.add_zero]
  rw [loopPoll_completed_ok _ _ _ _ _ _ completedSession R (by dsimp only; omega) rfl rfl
    rfl (by simp)]
  simp [MonRun.prepend]

/-- Witness for `results_fetch_failure_requeued`. -/
theorem results_fetch_failure_requeued_witness :
    (1 ≤ 5000) ∧ (2 * 5000 < 600000) ∧
    pollUntilComplete
        { pollScript := fun _ => .ok completedSession, cbThrows := fun _ => none
          resScript := fun r =>
            if r = 0 then .error (.networkFail "connection reset")
            else .ok sampleResults }
        "session-1" 5000 600000 =
      some { outcome := .ok sampleResults
             trace := [.poll 0, .progress completedSession, .fetchResults 0,
                       .caught (.networkFail "connection reset"), .sleep (2 * 5000),
                       .poll 1, .progress completedSession, .fetchResults 1] } :=
  ⟨by decide, by decide,
    results_fetch_failure_requeued 5000 600000 (.networkFail "connection reset")
      sampleResults "session-1" (by decide) (by decide)⟩

/-- C10 counterexample.  With polls always succeeding (`processing`)
and the callback throwing on every one of its 60 consecutive
invocations, the monitor never rejects with the polling-exhausted
error: each successful poll resets the counter before the callback
runs, so the run ends in the timeout rejection after 60 polls. -/
theorem callback_throws_timeout_counterexample :
    (pollUntilComplete envCallbackAlwaysThrows "session-1" 5000 600000).map
        (fun r => (r.outcome, r.pollCount, r.progressCount,
          r.caughtCount (.jsError "callback exploded"))) =
      some (.error (.processingTimeout "session-1"), 60, 60, 60) := by
  decide

/-- C10 (amended).  A throwing `onProgress` is caught like a polling
failure: the counter (just reset by the successful poll) becomes 1, the
loop sleeps `2 * pollInterval` and polls again — so the same remote
state, including a terminal `completed` status, can be delivered to
`onProgress` more than once — but consecutive callback throws never
accumulate toward the 5-failure budget. -/
theorem callback_throw_poll_failure :
    (∀ (env : MonEnv) (sid : String) (p maxD fuel : Nat) (st : MonState)
        (s : ProcessingSession) (m : String),
      st.elapsed < maxD → env.pollScript st.pollIdx = .ok s →
      env.cbThrows st.pollIdx = some m →
      loopPoll env sid p maxD (fuel + 1) st =
        (loopPoll env sid p maxD fuel
            { elapsed := st.elapsed + 2 * p, consecutiveErrors := 1
              pollIdx := st.pollIdx + 1, resIdx := st.resIdx }).map
          (MonRun.prepend [.poll st.pollIdx, .progress s, .caught (.jsError m),
            .sleep (2 * p)])) ∧
    ((pollUntilComplete envCallbackThrowsOnce "session-1" 5000 600000).map
        (fun r => (r.outcome, r.trace)) =
      some (.ok sampleResults,
        [.poll 0, .progress completedSession, .caught (.jsError "callback exploded"),
         .sleep 10000, .poll 1, .progress completedSession, .fetchResults 0])) := by
  constructor
  · intro env sid p maxD fuel st s m ht hps hcb
    exact loopPoll_cbThrow env sid p maxD fuel st s m ht hps hcb
  · decide

/-- Witness for `callback_throw_poll_failure`. -/
theorem callback_throw_poll_failure_witness :
    (({ elapsed := 0, consecutiveErrors := 0, pollIdx := 0, resIdx := 0 } :
        MonState).elapsed < 600000) ∧
    (envCallbackThrowsOnce.pollScript 0 = .ok completedSession) ∧
    (envCallbackThrowsOnce.cbThrows 0 = some "callback exploded") ∧
    loopPoll envCallbackThrowsOnce "session-1" 5000 600000 (7 + 1)
        { elapsed := 0, consecutiveErrors := 0, pollIdx := 0, resIdx := 0 } =
      (loopPoll envCallbackThrowsOnce "session-1" 5000 600000 7
          { elapsed := 0 + 2 * 5000, consecutiveErrors := 1
            pollIdx := 0 + 1, resIdx := 0 }).map
        (MonRun.prepend [.poll 0, .progress completedSession,
          .caught (.jsError "callback exploded"), .sleep (2 * 5000)]) :=
  ⟨by decide, rfl, rfl,
    callback_throw_poll_failure.1 envCallbackThrowsOnce "session-1" 5000 600000 7
      { elapsed := 0, consecutiveErrors := 0, pollIdx := 0, resIdx := 0 }
      completedSession "callback exploded" (by decide) rfl rfl⟩

end BackendAi
